import Mathlib

/-!
Verification of the annotation-conversion pipeline of `poseinterface`
(`poseinterface/io.py`): frame-number extraction from filenames,
image-id remapping in COCO documents, and the `annotations_to_coco`
conversion entry point.

Python integers are arbitrary precision and every quantity that appears
here (frame numbers, ids, counts) is non-negative, so they are modelled
as `Nat`.  Raised Python exceptions are modelled with `Except PyError`.
-/

/-- Errors raised by the Python code: `ValueError(msg)`, and the
`KeyError` raised by a failed dict lookup. -/
inductive PyError where
  | valueError (msg : String)
  | keyError
  deriving DecidableEq, Repr

/-- A regular expression of the shape used by `io.py`: a literal text
followed by a single capture group consisting of a required part (a
sequence of `\d` classes and literal characters) and a trailing greedy
`\d*`.  This covers every pattern the code and its tests use:
`frame-(\d+)` (required part: one digit class), `img(\d*)` (empty
required part), and `frame-(0\d*)` / `img(0\d*)` (required part: the
literal zero).  `raw` is the pattern's source text, carried along for
error messages (Python passes the pattern as a string). -/
structure FramePattern where
  raw : String
  pre : List Char
  grpReq : List (Option Char)
  deriving DecidableEq, Repr

/-- `POSEINTERFACE_FRAME_REGEXP = r"frame-(\d+)"` from `io.py`. -/
def POSEINTERFACE_FRAME_REGEXP : FramePattern :=
  { raw := "frame-(\\d+)", pre := "frame-".data, grpReq := [none] }

/-- One character class of the capture group: `none` is `\d`,
`some c` is the literal character `c`. -/
def mChr (oc : Option Char) (c : Char) : Bool :=
  match oc with
  | none => c.isDigit
  | some l => l == c

/-- Match the required part of the capture group at the front of `s`,
returning the consumed characters and the rest. -/
def mReq : List (Option Char) → List Char → Option (List Char × List Char)
  | [], s => some ([], s)
  | _ :: _, [] => none
  | oc :: ocs, c :: cs =>
    if mChr oc c then (mReq ocs cs).map (fun pr => (c :: pr.1, pr.2)) else none

/-- Greedily consume digits: the trailing `\d*` of the capture group. -/
def takeDigs : List Char → List Char
  | [] => []
  | c :: cs => if c.isDigit then c :: takeDigs cs else []

/-- Match a literal at the front of `s`, returning the rest on success. -/
def dropLit : List Char → List Char → Option (List Char)
  | [], s => some s
  | _ :: _, [] => none
  | p :: ps, c :: cs => if p == c then dropLit ps cs else none

/-- Try to match the pattern at the start of `s`; on success return the
text captured by the group (required part plus greedy digit run). -/
def matchAt (pt : FramePattern) (s : List Char) : Option (List Char) :=
  match dropLit pt.pre s with
  | none => none
  | some rest =>
    match mReq pt.grpReq rest with
    | none => none
    | some pr => some (pr.1 ++ takeDigs pr.2)

/-- `re.search`: try the pattern at each position of the string, left to
right, and return the capture group of the leftmost match. -/
def searchGroup (pt : FramePattern) : List Char → Option (List Char)
  | [] => matchAt pt []
  | c :: cs =>
    match matchAt pt (c :: cs) with
    | some g => some g
    | none => searchGroup pt cs

/-- Decimal value of a digit string. -/
def digitsToNat (s : List Char) : Nat :=
  s.foldl (fun n c => 10 * n + (c.toNat - 48)) 0

/-- Python `int(s)` applied to a captured group: it succeeds exactly on
a nonempty all-digit string (captured groups of the patterns above never
contain signs or whitespace), otherwise it raises `ValueError`. -/
def pyInt (s : List Char) : Except PyError Nat :=
  if !s.isEmpty && s.all Char.isDigit then .ok (digitsToNat s)
  else .error (.valueError
    ("invalid literal for int() with base 10: " ++ String.mk s))

/-- `io.py::_extract_frame_number`: `re.search` the pattern in the
filename; when there is no match, raise a `ValueError` naming the
filename and the pattern, otherwise return `int(match.group(1))`.
The declared Python return type is `int | None`, but the body contains
no `return None` path, so the result type here is `Except PyError Nat`. -/
def extract_frame_number (filename : String) (frame_regexp : FramePattern) :
    Except PyError Nat :=
  match searchGroup frame_regexp filename.data with
  | none =>
    .error (.valueError
      ("No frame number could be extracted from filename " ++ filename ++
       ". Please check that the filename contains a " ++
       "frame number matching the provided regexp pattern " ++
       "\x27" ++ frame_regexp.raw ++ "\x27."))
  | some g => pyInt g

instance {α β : Type} [DecidableEq α] [DecidableEq β] : DecidableEq (Except α β) := fun a b =>
  match a, b with
  | .error x, .error y =>
    if h : x = y then .isTrue (by rw [h])
    else .isFalse (by intro hc; cases hc; exact h rfl)
  | .error _, .ok _ => .isFalse (by intro hc; cases hc)
  | .ok _, .error _ => .isFalse (by intro hc; cases hc)
  | .ok x, .ok y =>
    if h : x = y then .isTrue (by rw [h])
    else .isFalse (by intro hc; cases hc; exact h rfl)

/-- The pattern `img(\d*)` used by the unit tests. -/
def imgDigitsPat : FramePattern :=
  { raw := "img(\\d*)", pre := "img".data, grpReq := [] }

/-- The pattern `frame-(0\d*)` used by the unit tests. -/
def frameZeroPat : FramePattern :=
  { raw := "frame-(0\\d*)", pre := "frame-".data, grpReq := [some '0'] }

/-- An entry of a COCO document's `images` list (the fields the code
reads or writes: `id` and `file_name`). -/
structure CocoImage where
  id : Nat
  file_name : String
  deriving DecidableEq, Repr

/-- An entry of a COCO document's `annotations` list (the fields the
code reads or writes: `id` and `image_id`). -/
structure CocoAnn where
  id : Nat
  image_id : Nat
  deriving DecidableEq, Repr

/-- A COCO document as produced by `coco.convert_labels` and serialized
by `annotations_to_coco`. -/
structure CocoDoc where
  images : List CocoImage
  annotations : List CocoAnn
  deriving DecidableEq, Repr

/-- Key-membership test on a Python dict, modelled as an
insertion-ordered association list with distinct keys. -/
def dictHasKey (d : List (Nat × Nat)) (k : Nat) : Bool :=
  d.any (fun p => p.1 == k)

/-- `d[k] = v` on a Python dict: overwrite in place when the key is
present, otherwise append a new entry. -/
def dictInsert (d : List (Nat × Nat)) (k v : Nat) : List (Nat × Nat) :=
  if dictHasKey d k then d.map (fun p => if p.1 == k then (k, v) else p)
  else d ++ [(k, v)]

/-- `d[k]` on a Python dict: `KeyError` when the key is absent. -/
def dictGet (d : List (Nat × Nat)) (k : Nat) : Except PyError Nat :=
  match d.find? (fun p => p.1 == k) with
  | some p => .ok p.2
  | none => .error .keyError

/-- The first loop of `io.py::_update_image_ids`: for each image in
order, extract the frame number from `file_name`, record
`old id ↦ new id` in the dict, and set the image's `id` to the new id. -/
def buildIdMap : List CocoImage → List (Nat × Nat) →
    Except PyError (List (Nat × Nat) × List CocoImage)
  | [], acc => .ok (acc, [])
  | img :: rest, acc =>
    match extract_frame_number img.file_name POSEINTERFACE_FRAME_REGEXP with
    | .error e => .error e
    | .ok newId =>
      match buildIdMap rest (dictInsert acc img.id newId) with
      | .error e => .error e
      | .ok (m, imgs) => .ok (m, { img with id := newId } :: imgs)

/-- The duplicate-id error message of `_update_image_ids` (a fixed
string, independent of the colliding filenames and frame numbers). -/
def dupMsg : String :=
  "Extracted image IDs are not unique. Please check that the frame " ++
  "numbers as specified in the filename are unique."

/-- The second loop of `_update_image_ids`: replace every annotation's
`image_id` by its entry in the old-to-new map (`KeyError` if absent). -/
def mapAnnots (m : List (Nat × Nat)) : List CocoAnn → Except PyError (List CocoAnn)
  | [] => .ok []
  | a :: rest =>
    match dictGet m a.image_id with
    | .error e => .error e
    | .ok v =>
      match mapAnnots m rest with
      | .error e => .error e
      | .ok others => .ok ({ a with image_id := v } :: others)

/-- `io.py::_update_image_ids`: deep-copy the input document (modelled
by constructing new values throughout), remap every image id to the
frame number extracted from its filename, require the old-to-new dict to
have as many entries as distinct values
(`len(old_to_new_id) != len(set(old_to_new_id.values()))`), then remap
every annotation's `image_id` through the dict. -/
def update_image_ids (input_data : CocoDoc) : Except PyError CocoDoc :=
  match buildIdMap input_data.images [] with
  | .error e => .error e
  | .ok (m, imgs) =>
    if m.length ≠ (m.map Prod.snd).dedup.length then
      .error (.valueError dupMsg)
    else
      match mapAnnots m input_data.annotations with
      | .error e => .error e
      | .ok anns => .ok { images := imgs, annotations := anns }

/-- The call-level embedding of `_update_image_ids`, making the frame
effect explicit: the caller's document and the function's working copy
(`data = copy.deepcopy(input_data)`, an independent value sharing no
mutable storage with the input) are threaded separately; every statement
of the body updates only the working copy, and the call returns the pair
(caller's document after the call, returned value). -/
def update_image_ids_call (input_data : CocoDoc) :
    Except PyError (CocoDoc × CocoDoc) :=
  let data := input_data
  match buildIdMap data.images [] with
  | .error e => .error e
  | .ok (m, imgs) =>
    let data := { data with images := imgs }
    if m.length ≠ (m.map Prod.snd).dedup.length then
      .error (.valueError dupMsg)
    else
      match mapAnnots m data.annotations with
      | .error e => .error e
      | .ok anns =>
        let data := { data with annotations := anns }
        .ok (input_data, data)

/-- A labeled frame of a loaded `sleap_io.Labels` object: a video
reference plus a frame index. -/
structure LabeledFrame where
  video : Nat
  frame_idx : Nat
  deriving DecidableEq, Repr

/-- The parts of a loaded `sleap_io.Labels` object that
`annotations_to_coco` inspects: the labeled frames and the list of
distinct referenced videos. -/
structure Labels where
  labeled_frames : List LabeledFrame
  videos : List Nat
  deriving DecidableEq, Repr

/-- `_EMPTY_LABELS_ERROR_MSG["default"]` from `io.py`. -/
def EMPTY_LABELS_DEFAULT : String :=
  "No annotations could be extracted from the input file. " ++
  "Please check that the input file contains labeled frames. "

/-- `_EMPTY_LABELS_ERROR_MSG["dlc"]` from `io.py`. -/
def EMPTY_LABELS_DLC : String :=
  "Ensure that the paths to the labelled frames are in the " ++
  "standard DLC project format: " ++
  "labeled-data / <video-name> / " ++
  "<filename-with-frame-number>.<extension> " ++
  "and that the frames files exist."

/-- The multiple-videos error message of `annotations_to_coco`, with the
video count interpolated. -/
def multiVideosMsg (n : Nat) : String :=
  "The annotations refer to multiple videos " ++
  "(n=" ++ toString n ++ "). " ++
  "Please check that the input file contains annotations " ++
  "for a single video only."

/-- The external collaborators of `annotations_to_coco`, passed as an
environment: `sio.load_file`, `sleap_io.io.dlc.is_dlc_file`, and
`coco.convert_labels` (the latter taken at the fixed
`image_filenames` / `visibility_encoding` arguments of one call). -/
structure ConvertEnv where
  load_file : String → Labels
  is_dlc_file : String → Bool
  convert_labels : Labels → CocoDoc

/-- The observable outcome of one `annotations_to_coco` call: the value
returned (the output path) or the exception raised, together with the
list of file writes performed, as (path, serialized document) pairs. -/
structure ConvertOutcome where
  ret : Except PyError String
  writes : List (String × CocoDoc)

/-- `io.py::annotations_to_coco`: load the file; raise `ValueError` on
an empty label set (appending the DLC hint when `is_dlc_file` holds) and
on more than one video; convert via `coco.convert_labels`; then write
the JSON file and return the output path.  The `_update_image_ids` call
present in the source is commented out (pending an upstream change), so
the converted document is written unchanged. -/
def annotations_to_coco (env : ConvertEnv)
    (input_path output_json_path : String) : ConvertOutcome :=
  let labels := env.load_file input_path
  if labels.labeled_frames.length = 0 then
    { ret := .error (.valueError
        (EMPTY_LABELS_DEFAULT ++
          (if env.is_dlc_file input_path then EMPTY_LABELS_DLC else ""))),
      writes := [] }
  else if labels.videos.length > 1 then
    { ret := .error (.valueError (multiVideosMsg labels.videos.length)),
      writes := [] }
  else
    let coco_data := env.convert_labels labels
    { ret := .ok output_json_path,
      writes := [(output_json_path, coco_data)] }

/-- Referential integrity of a COCO document: every annotation's
`image_id` is the `id` of some image of the document. -/
def refIntegrity (d : CocoDoc) : Prop :=
  ∀ a ∈ d.annotations, a.image_id ∈ d.images.map (fun i => i.id)

/-- Image ids are unique within the document. -/
def uniqueImageIds (d : CocoDoc) : Prop :=
  (d.images.map (fun i => i.id)).Nodup

/-- The frame numbers extracted from a list of images' filenames, in
order (used to state properties of `_update_image_ids`). -/
def mapExtract : List CocoImage → Except PyError (List Nat)
  | [] => .ok []
  | i :: rest =>
    match extract_frame_number i.file_name POSEINTERFACE_FRAME_REGEXP with
    | .error e => .error e
    | .ok n =>
      match mapExtract rest with
      | .error e => .error e
      | .ok ns => .ok (n :: ns)

/-- A fixture environment: the loader finds no labeled frames (three
videos referenced), and the source is detected as a DLC file. -/
def envEmptyDlc : ConvertEnv :=
  { load_file := fun _ => { labeled_frames := [], videos := [0, 1, 2] },
    is_dlc_file := fun _ => true,
    convert_labels := fun _ => { images := [], annotations := [] } }

/-- A fixture environment: no labeled frames, source not a DLC file. -/
def envEmptyPlain : ConvertEnv :=
  { load_file := fun _ => { labeled_frames := [], videos := [] },
    is_dlc_file := fun _ => false,
    convert_labels := fun _ => { images := [], annotations := [] } }

/-- A fixture document with one image named after frame 7. -/
def docOneFrame : CocoDoc :=
  { images := [{ id := 0, file_name := "frame-00007.png" }],
    annotations := [{ id := 0, image_id := 0 }] }

/-- A fixture environment: one labeled frame from each of two videos. -/
def envTwoVideos : ConvertEnv :=
  { load_file := fun _ =>
      { labeled_frames := [{ video := 0, frame_idx := 0 },
                           { video := 1, frame_idx := 0 }],
        videos := [0, 1] },
    is_dlc_file := fun _ => false,
    convert_labels := fun _ => docOneFrame }

/-- A fixture environment: one labeled frame from a single video. -/
def envOneVideo : ConvertEnv :=
  { load_file := fun _ =>
      { labeled_frames := [{ video := 0, frame_idx := 0 }], videos := [0] },
    is_dlc_file := fun _ => false,
    convert_labels := fun _ => docOneFrame }

/-- The document `coco.convert_labels` would produce for a one-image
label set whose derived filename encodes frame 42: the image id is the
sequential id 1, not the frame number. -/
def doc42 : CocoDoc :=
  { images := [{ id := 1, file_name := "sub-X_ses-Y_view-Z_frame-00042.png" }],
    annotations := [{ id := 0, image_id := 1 }] }

/-- A fixture environment whose converted document is `doc42`. -/
def envFrame42 : ConvertEnv :=
  { load_file := fun _ =>
      { labeled_frames := [{ video := 0, frame_idx := 42 }], videos := [0] },
    is_dlc_file := fun _ => false,
    convert_labels := fun _ => doc42 }

/-- Two images with the SAME old id and the same extracted frame
number: the dict keyed by old ids collapses them, so the size check of
`_update_image_ids` cannot see the collision. -/
def dupOldIdDoc : CocoDoc :=
  { images := [{ id := 1, file_name := "frame-0005.png" },
               { id := 1, file_name := "frame-0005.png" }],
    annotations := [] }

/-- Two images with distinct old ids but the same extracted frame
number (the situation the unit tests exercise). -/
def dupFrameDoc : CocoDoc :=
  { images := [{ id := 1, file_name := "frame-0005.png" },
               { id := 2, file_name := "frame-0005.png" }],
    annotations := [] }

/-- The two-image document of the unit test of `_update_image_ids`. -/
def twoFrameDoc : CocoDoc :=
  { images := [{ id := 234, file_name := "frame-00011.png" },
               { id := 100, file_name := "frame-00012.png" }],
    annotations := [{ id := 1, image_id := 100 }, { id := 2, image_id := 234 }] }

example : extract_frame_number "img0234.png" imgDigitsPat = .ok 234 := by decide
example : extract_frame_number "frame-234" POSEINTERFACE_FRAME_REGEXP = .ok 234 := by decide
example : extract_frame_number "frame-0234abcd" POSEINTERFACE_FRAME_REGEXP = .ok 234 := by decide
example : searchGroup frameZeroPat "frame-234".data = none := by decide
example :
    update_image_ids
      { images := [{ id := 234, file_name := "frame-00011.png" },
                   { id := 100, file_name := "frame-00012.png" }],
        annotations := [{ id := 1, image_id := 100 }, { id := 2, image_id := 234 }] } =
    .ok
      { images := [{ id := 11, file_name := "frame-00011.png" },
                   { id := 12, file_name := "frame-00012.png" }],
        annotations := [{ id := 1, image_id := 12 }, { id := 2, image_id := 11 }] } := by
  decide
example :
    update_image_ids
      { images := [{ id := 1, file_name := "frame-0005.png" },
                   { id := 2, file_name := "frame-0005.png" }],
        annotations := [] } =
    .error (.valueError dupMsg) := by decide

/-- C3: a loaded label set with zero labeled frames makes
`annotations_to_coco` raise the empty-labels `ValueError` before any
other check (the video count is irrelevant) and before any write; the
message is the generic one, extended by the DLC path-layout explanation
exactly when `is_dlc_file` detects the source as a DLC file. -/
theorem convert_empty_labels_error (env : ConvertEnv) (ip op : String)
    (h : (env.load_file ip).labeled_frames = []) :
    annotations_to_coco env ip op =
      { ret := .error (.valueError
          (EMPTY_LABELS_DEFAULT ++
            (if env.is_dlc_file ip then EMPTY_LABELS_DLC else ""))),
        writes := [] } := by
  unfold annotations_to_coco
  rw [if_pos (by simp [h])]

/-- Witness for C3: concrete empty label sets, one detected as DLC
(three referenced videos) and one not. -/
theorem convert_empty_labels_error_witness :
    annotations_to_coco envEmptyDlc "in.csv" "out.json" =
      { ret := .error (.valueError
          (EMPTY_LABELS_DEFAULT ++
            (if envEmptyDlc.is_dlc_file "in.csv" then EMPTY_LABELS_DLC else ""))),
        writes := [] } ∧
    annotations_to_coco envEmptyPlain "in.csv" "out.json" =
      { ret := .error (.valueError
          (EMPTY_LABELS_DEFAULT ++
            (if envEmptyPlain.is_dlc_file "in.csv" then EMPTY_LABELS_DLC else ""))),
        writes := [] } :=
  ⟨convert_empty_labels_error envEmptyDlc "in.csv" "out.json" rfl,
   convert_empty_labels_error envEmptyPlain "in.csv" "out.json" rfl⟩

/-- C4: with at least one labeled frame, more than one distinct video
makes `annotations_to_coco` raise the multiple-videos `ValueError`
whose message reports the video count (for two videos it contains
"(n=2)"); with exactly one video the call succeeds, so that error is
not raised. -/
theorem convert_multiple_videos_error (env : ConvertEnv) (ip op : String)
    (h : (env.load_file ip).labeled_frames ≠ []) :
    ((env.load_file ip).videos.length > 1 →
      annotations_to_coco env ip op =
        { ret := .error (.valueError
            (multiVideosMsg (env.load_file ip).videos.length)),
          writes := [] }) ∧
    ((env.load_file ip).videos.length = 1 →
      annotations_to_coco env ip op =
        { ret := .ok op,
          writes := [(op, env.convert_labels (env.load_file ip))] }) ∧
    multiVideosMsg 2 =
      "The annotations refer to multiple videos (n=2). " ++
      "Please check that the input file contains annotations " ++
      "for a single video only." := by
  refine ⟨?_, ?_, by decide⟩
  · intro hv
    unfold annotations_to_coco
    rw [if_neg (by simp [h]), if_pos hv]
  · intro hv
    unfold annotations_to_coco
    rw [if_neg (by simp [h]), if_neg (by omega)]

/-- Witness for C4: a two-video label set raises the counting message,
a one-video label set converts successfully. -/
theorem convert_multiple_videos_error_witness :
    annotations_to_coco envTwoVideos "in.slp" "out.json" =
      { ret := .error (.valueError
          (multiVideosMsg (envTwoVideos.load_file "in.slp").videos.length)),
        writes := [] } ∧
    annotations_to_coco envOneVideo "in.slp" "out.json" =
      { ret := .ok "out.json",
        writes := [("out.json",
          envOneVideo.convert_labels (envOneVideo.load_file "in.slp"))] } :=
  ⟨(convert_multiple_videos_error envTwoVideos "in.slp" "out.json"
      (by decide)).1 (by decide),
   (convert_multiple_videos_error envOneVideo "in.slp" "out.json"
      (by decide)).2.1 rfl⟩

/-- C6: whenever the pattern has no match in the filename,
`_extract_frame_number` raises the `ValueError` whose message starts
with "No frame number could be extracted" and names both the filename
and the pattern's source text. -/
theorem extract_frame_number_no_match (f : String) (p : FramePattern)
    (h : searchGroup p f.data = none) :
    extract_frame_number f p = .error (.valueError
      ("No frame number could be extracted from filename " ++ f ++
       ". Please check that the filename contains a " ++
       "frame number matching the provided regexp pattern " ++
       "\x27" ++ p.raw ++ "\x27.")) := by
  unfold extract_frame_number
  rw [h]

/-- Witness for C6: `"frame-234"` against `frame-(0\d*)` (the capture
group requires a leading zero, so there is no match). -/
theorem extract_frame_number_no_match_witness :
    extract_frame_number "frame-234" frameZeroPat = .error (.valueError
      ("No frame number could be extracted from filename " ++ "frame-234" ++
       ". Please check that the filename contains a " ++
       "frame number matching the provided regexp pattern " ++
       "\x27" ++ frameZeroPat.raw ++ "\x27.")) :=
  extract_frame_number_no_match "frame-234" frameZeroPat (by decide)

/-- C7: frame-number extraction parses the decimal integer from the
first capture group of the leftmost match, dropping leading zeros and
ignoring trailing non-digit text: `"img0234.png"` with `img(\d*)` gives
234, `"frame-234"` and `"frame-0234abcd"` with `frame-(\d+)` both give
234; and as a pure function it is deterministic. -/
theorem extract_frame_number_examples :
    extract_frame_number "img0234.png" imgDigitsPat = .ok 234 ∧
    extract_frame_number "frame-234" POSEINTERFACE_FRAME_REGEXP = .ok 234 ∧
    extract_frame_number "frame-0234abcd" POSEINTERFACE_FRAME_REGEXP = .ok 234 ∧
    ∀ (f : String) (p : FramePattern),
      extract_frame_number f p = extract_frame_number f p :=
  ⟨by decide, by decide, by decide, fun _ _ => rfl⟩

/-- C10: `_extract_frame_number` never produces a `None`-like result,
despite its declared `int | None` return type: every call either
returns the integer parsed from the captured group (whenever the group
is a nonempty digit string), or raises a `ValueError` (no match, or a
group that `int()` cannot parse). -/
theorem extract_frame_number_never_none (f : String) (p : FramePattern) :
    (searchGroup p f.data = none ∧
      extract_frame_number f p = .error (.valueError
        ("No frame number could be extracted from filename " ++ f ++
         ". Please check that the filename contains a " ++
         "frame number matching the provided regexp pattern " ++
         "\x27" ++ p.raw ++ "\x27."))) ∨
    (∃ g, searchGroup p f.data = some g ∧
      (!g.isEmpty && g.all Char.isDigit) = true ∧
      extract_frame_number f p = .ok (digitsToNat g)) ∨
    (∃ g, searchGroup p f.data = some g ∧
      (!g.isEmpty && g.all Char.isDigit) = false ∧
      extract_frame_number f p = .error (.valueError
        ("invalid literal for int() with base 10: " ++ String.mk g))) := by
  cases hs : searchGroup p f.data with
  | none =>
    left
    exact ⟨rfl, by unfold extract_frame_number; rw [hs]⟩
  | some g =>
    have hext : extract_frame_number f p = pyInt g := by
      unfold extract_frame_number
      rw [hs]
    cases hb : (!g.isEmpty && g.all Char.isDigit) with
    | true =>
      right; left
      exact ⟨g, rfl, hb, by rw [hext]; unfold pyInt; rw [if_pos hb]⟩
    | false =>
      right; right
      exact ⟨g, rfl, hb, by rw [hext]; unfold pyInt; rw [if_neg (by simp [hb])]⟩

/-- C8: `annotations_to_coco` performs no partial writes: on every
error path nothing has been written (validation and conversion finish
in memory before the single write), and on success exactly one artifact
is written at the output path, which is also the returned value. -/
theorem convert_no_partial_writes (env : ConvertEnv) (ip op : String) :
    (∀ e, (annotations_to_coco env ip op).ret = .error e →
      (annotations_to_coco env ip op).writes = []) ∧
    (∀ s, (annotations_to_coco env ip op).ret = .ok s →
      s = op ∧ (annotations_to_coco env ip op).writes =
        [(op, env.convert_labels (env.load_file ip))]) := by
  simp only [annotations_to_coco]
  by_cases h1 : (env.load_file ip).labeled_frames.length = 0
  · rw [if_pos h1]
    refine ⟨fun e _ => rfl, fun s hs => ?_⟩
    cases hs
  · rw [if_neg h1]
    by_cases h2 : (env.load_file ip).videos.length > 1
    · rw [if_pos h2]
      refine ⟨fun e _ => rfl, fun s hs => ?_⟩
      cases hs
    · rw [if_neg h2]
      refine ⟨fun e he => ?_, fun s hs => ?_⟩
      · cases he
      · cases hs
        exact ⟨rfl, rfl⟩

/-- Witness for C8: on a failing call (empty label set) nothing is
written; on a succeeding call exactly the converted document is written
at the output path. -/
theorem convert_no_partial_writes_witness :
    (annotations_to_coco envEmptyDlc "in.csv" "out.json").writes = [] ∧
    ("out.json" = "out.json" ∧
      (annotations_to_coco envOneVideo "in.slp" "out.json").writes =
        [("out.json",
          envOneVideo.convert_labels (envOneVideo.load_file "in.slp"))]) :=
  ⟨(convert_no_partial_writes envEmptyDlc "in.csv" "out.json").1
      (.valueError (EMPTY_LABELS_DEFAULT ++ EMPTY_LABELS_DLC)) rfl,
   (convert_no_partial_writes envOneVideo "in.slp" "out.json").2
      "out.json" rfl⟩

/-- C1 (code bug evidence): `annotations_to_coco` writes the document
returned by `coco.convert_labels` unchanged, because the
`_update_image_ids` call in the source is commented out.  For a
converted document whose only image is named
`sub-X_ses-Y_view-Z_frame-00042.png` with sequential id 1, the written
image id stays 1 although the frame number extracted from the filename
by the fixed pattern is 42 — while the disabled `_update_image_ids`
step would have remapped both the image id and the annotation's
`image_id` to 42, as the claim and the function's own docstring
describe. -/
theorem convert_writes_unremapped_ids :
    annotations_to_coco envFrame42 "annotations.slp" "out.json" =
      { ret := .ok "out.json", writes := [("out.json", doc42)] } ∧
    doc42.images.map (fun i => i.id) = [1] ∧
    extract_frame_number "sub-X_ses-Y_view-Z_frame-00042.png"
      POSEINTERFACE_FRAME_REGEXP = .ok 42 ∧
    (1 : Nat) ≠ 42 ∧
    update_image_ids doc42 =
      .ok { images := [{ id := 42,
                         file_name := "sub-X_ses-Y_view-Z_frame-00042.png" }],
            annotations := [{ id := 0, image_id := 42 }] } := by
  refine ⟨?_, by decide, by decide, by decide, by decide⟩
  unfold annotations_to_coco
  rfl

/-- C9: the call-level embedding of `_update_image_ids` (which threads
the caller's document and the deep-copied working document separately)
returns the caller's document unchanged in its first component, and in
its second component exactly the newly constructed document computed by
the pure remapping — the input document is never mutated. -/
theorem update_image_ids_frame (d : CocoDoc) :
    update_image_ids_call d =
      Except.map (fun r => (d, r)) (update_image_ids d) := by
  rcases hbb : buildIdMap d.images [] with e | ⟨m, imgs⟩
  · simp [update_image_ids_call, update_image_ids, hbb, Except.map]
  · by_cases hc : m.length ≠ (m.map Prod.snd).dedup.length
    · simp [update_image_ids_call, update_image_ids, hbb, hc, Except.map]
    · rcases hma : mapAnnots m d.annotations with e | anns
      · simp [update_image_ids_call, update_image_ids, hbb, hc, hma, Except.map]
      · simp [update_image_ids_call, update_image_ids, hbb, hc, hma, Except.map]

theorem dictHasKey_iff (d : List (Nat × Nat)) (k : Nat) :
    dictHasKey d k = true ↔ k ∈ d.map Prod.fst := by
  simp [dictHasKey, List.any_eq_true, List.mem_map, beq_iff_eq]

theorem dictInsert_fresh (d : List (Nat × Nat)) (k v : Nat)
    (h : k ∉ d.map Prod.fst) : dictInsert d k v = d ++ [(k, v)] := by
  unfold dictInsert
  rw [if_neg]
  rw [dictHasKey_iff]
  exact h

theorem mapOverwrite_of_not_mem (d : List (Nat × Nat)) (k v : Nat)
    (h : k ∉ d.map Prod.fst) :
    d.map (fun p => if p.1 == k then (k, v) else p) = d := by
  induction d with
  | nil => rfl
  | cons p rest ih =>
    have h1 : ¬ p.1 = k := fun he => h (by simp [he])
    have h2 : k ∉ rest.map Prod.fst := fun hm => h (by simp [hm])
    simp only [List.map_cons]
    rw [if_neg (by simpa using h1), ih h2]

theorem mapOverwrite_keys (d : List (Nat × Nat)) (k v : Nat) :
    (d.map (fun p => if p.1 == k then (k, v) else p)).map Prod.fst =
      d.map Prod.fst := by
  induction d with
  | nil => rfl
  | cons p rest ih =>
    simp only [List.map_cons]
    by_cases h : p.1 = k
    · rw [if_pos (by simpa using h), ih, h]
    · rw [if_neg (by simpa using h), ih]

theorem dictInsert_keys_nodup (d : List (Nat × Nat)) (k v : Nat)
    (h : (d.map Prod.fst).Nodup) :
    ((dictInsert d k v).map Prod.fst).Nodup := by
  unfold dictInsert
  by_cases hk : dictHasKey d k = true
  · rw [if_pos hk, mapOverwrite_keys]
    exact h
  · rw [if_neg hk]
    have hfresh : k ∉ d.map Prod.fst := by
      rw [← dictHasKey_iff]
      simp_all
    simp [List.map_append, List.nodup_append, h, hfresh]

theorem dictInsert_values_subperm (d : List (Nat × Nat)) (k v : Nat)
    (h : (d.map Prod.fst).Nodup) :
    List.Subperm ((dictInsert d k v).map Prod.snd) (d.map Prod.snd ++ [v]) := by
  induction d with
  | nil =>
    have he : dictInsert [] k v = [(k, v)] := rfl
    rw [he]
    exact List.Subperm.refl _
  | cons p rest ih =>
    rw [List.map_cons] at h
    have hnc := List.nodup_cons.mp h
    by_cases hpk : p.1 = k
    · have hHas : dictHasKey (p :: rest) k = true := by
        simp [dictHasKey, hpk]
      have hkr : k ∉ rest.map Prod.fst := hpk ▸ hnc.1
      have heq : dictInsert (p :: rest) k v = (k, v) :: rest := by
        unfold dictInsert
        rw [if_pos hHas]
        simp only [List.map_cons]
        rw [if_pos (by simpa using hpk), mapOverwrite_of_not_mem rest k v hkr]
      rw [heq]
      simp only [List.map_cons, List.cons_append]
      exact ⟨rest.map Prod.snd ++ [v], List.perm_append_singleton v _,
        List.sublist_cons_of_sublist _ (List.Sublist.refl _)⟩
    · have hnr : (rest.map Prod.fst).Nodup := hnc.2
      by_cases hr : dictHasKey rest k = true
      · have hHas : dictHasKey (p :: rest) k = true := by
          simp [dictHasKey] at hr ⊢
          exact Or.inr hr
        have heq : dictInsert (p :: rest) k v = p :: dictInsert rest k v := by
          unfold dictInsert
          rw [if_pos hHas, if_pos hr]
          simp only [List.map_cons]
          rw [if_neg (by simpa using hpk)]
        rw [heq]
        simp only [List.map_cons, List.cons_append]
        obtain ⟨l, hperm, hsub⟩ := ih hnr
        exact ⟨p.2 :: l, List.Perm.cons p.2 hperm, List.Sublist.cons₂ p.2 hsub⟩
      · have hHasF : ¬ dictHasKey (p :: rest) k = true := by
          simp [dictHasKey] at hr ⊢
          exact ⟨by simpa using hpk, hr⟩
        have heq : dictInsert (p :: rest) k v = (p :: rest) ++ [(k, v)] := by
          unfold dictInsert
          rw [if_neg hHasF]
        rw [heq, List.map_append]
        exact List.Subperm.refl _

theorem mapExtract_length (imgs : List CocoImage) :
    ∀ ns, mapExtract imgs = .ok ns → ns.length = imgs.length := by
  induction imgs with
  | nil =>
    intro ns h
    cases h
    rfl
  | cons i rest ih =>
    intro ns h
    unfold mapExtract at h
    cases he : extract_frame_number i.file_name POSEINTERFACE_FRAME_REGEXP with
    | error e => rw [he] at h; cases h
    | ok n =>
      rw [he] at h
      cases hr : mapExtract rest with
      | error e => rw [hr] at h; cases h
      | ok ns2 =>
        rw [hr] at h
        cases h
        simp [ih ns2 hr]

theorem buildIdMap_chars (imgs : List CocoImage) :
    ∀ acc m imgs2, buildIdMap imgs acc = .ok (m, imgs2) →
      (acc.map Prod.fst).Nodup →
      ∃ ns, mapExtract imgs = .ok ns ∧ (m.map Prod.fst).Nodup ∧
        List.Subperm (m.map Prod.snd) (acc.map Prod.snd ++ ns) := by
  induction imgs with
  | nil =>
    intro acc m imgs2 h hnd
    cases h
    refine ⟨[], rfl, hnd, ?_⟩
    rw [List.append_nil]
  | cons i rest ih =>
    intro acc m imgs2 h hnd
    cases he : extract_frame_number i.file_name POSEINTERFACE_FRAME_REGEXP with
    | error e => simp only [buildIdMap, he] at h; cases h
    | ok n =>
      simp only [buildIdMap, he] at h
      cases hb : buildIdMap rest (dictInsert acc i.id n) with
      | error e => rw [hb] at h; cases h
      | ok pr =>
        obtain ⟨m2, imgs3⟩ := pr
        rw [hb] at h
        cases h
        obtain ⟨ns, hns, hnd2, hsp⟩ :=
          ih (dictInsert acc i.id n) m imgs3 hb
            (dictInsert_keys_nodup acc i.id n hnd)
        refine ⟨n :: ns, ?_, hnd2, ?_⟩
        · unfold mapExtract
          rw [he, hns]
        · have h1 := dictInsert_values_subperm acc i.id n hnd
          obtain ⟨l, hperm, hsub⟩ := h1
          have h2 : List.Subperm ((dictInsert acc i.id n).map Prod.snd ++ ns)
              ((acc.map Prod.snd ++ [n]) ++ ns) :=
            ⟨l ++ ns, List.Perm.append_right ns hperm,
              List.Sublist.append_right hsub ns⟩
          have h3 := hsp.trans h2
          rw [List.append_assoc] at h3
          simpa using h3

theorem buildIdMap_nodup_eq (imgs : List CocoImage) :
    ∀ acc ns, mapExtract imgs = .ok ns →
      ((acc.map Prod.fst) ++ imgs.map (fun i => i.id)).Nodup →
      buildIdMap imgs acc =
        .ok (acc ++ (imgs.map (fun i => i.id)).zip ns,
             List.zipWith (fun i n => { i with id := n }) imgs ns) := by
  induction imgs with
  | nil =>
    intro acc ns h _
    cases h
    simp [buildIdMap]
  | cons i rest ih =>
    intro acc ns h hnd
    unfold mapExtract at h
    cases he : extract_frame_number i.file_name POSEINTERFACE_FRAME_REGEXP with
    | error e => rw [he] at h; cases h
    | ok n =>
      rw [he] at h
      cases hr : mapExtract rest with
      | error e => rw [hr] at h; cases h
      | ok ns2 =>
        rw [hr] at h
        cases h
        have hfresh : i.id ∉ acc.map Prod.fst := by
          intro hmem
          exact (List.nodup_append.mp hnd).2.2 hmem (by simp)
        have hnd2 : (((acc ++ [(i.id, n)]).map Prod.fst) ++
            rest.map (fun i => i.id)).Nodup := by
          simpa [List.map_append, List.append_assoc] using hnd
        simp only [buildIdMap, he]
        rw [dictInsert_fresh acc i.id n hfresh, ih (acc ++ [(i.id, n)]) ns2 hr hnd2]
        simp [List.append_assoc]

theorem buildIdMap_total (imgs : List CocoImage) :
    ∀ acc ns, mapExtract imgs = .ok ns →
      ∃ m imgs2, buildIdMap imgs acc = .ok (m, imgs2) := by
  induction imgs with
  | nil =>
    intro acc ns _
    exact ⟨acc, [], rfl⟩
  | cons i rest ih =>
    intro acc ns h
    unfold mapExtract at h
    cases he : extract_frame_number i.file_name POSEINTERFACE_FRAME_REGEXP with
    | error e => rw [he] at h; cases h
    | ok n =>
      rw [he] at h
      cases hr : mapExtract rest with
      | error e => rw [hr] at h; cases h
      | ok ns2 =>
        obtain ⟨m, imgs2, hb⟩ := ih (dictInsert acc i.id n) ns2 hr
        refine ⟨m, { i with id := n } :: imgs2, ?_⟩
        simp only [buildIdMap, he, hb]

theorem map_snd_zip_eq (l1 l2 : List Nat) (h : l1.length = l2.length) :
    (l1.zip l2).map Prod.snd = l2 := by
  induction l1 generalizing l2 with
  | nil =>
    cases l2 with
    | nil => rfl
    | cons b bs => simp at h
  | cons a as ih =>
    cases l2 with
    | nil => simp at h
    | cons b bs =>
      simp only [List.zip_cons_cons, List.map_cons]
      rw [ih bs (by simpa using h)]

theorem zipWith_setId_ids (imgs : List CocoImage) (ns : List Nat) :
    imgs.length = ns.length →
    (List.zipWith (fun i n => { i with id := n }) imgs ns).map
      (fun i => i.id) = ns := by
  induction imgs generalizing ns with
  | nil =>
    intro h
    cases ns with
    | nil => rfl
    | cons n ns2 => simp at h
  | cons i rest ih =>
    intro h
    cases ns with
    | nil => simp at h
    | cons n ns2 =>
      simp only [List.zipWith_cons_cons, List.map_cons]
      rw [ih ns2 (by simpa using h)]

theorem dictGet_ok_mem (m : List (Nat × Nat)) (k v : Nat)
    (h : dictGet m k = .ok v) : v ∈ m.map Prod.snd := by
  unfold dictGet at h
  cases hf : m.find? (fun p => p.1 == k) with
  | none => rw [hf] at h; cases h
  | some p =>
    rw [hf] at h
    cases h
    exact List.mem_map.mpr ⟨p, List.mem_of_find?_eq_some hf, rfl⟩

theorem mapAnnots_ok_mem (m : List (Nat × Nat)) :
    ∀ anns anns2, mapAnnots m anns = .ok anns2 →
      ∀ a ∈ anns2, a.image_id ∈ m.map Prod.snd := by
  intro anns
  induction anns with
  | nil =>
    intro anns2 h a ha
    cases h
    cases ha
  | cons a0 rest ih =>
    intro anns2 h a ha
    unfold mapAnnots at h
    cases hg : dictGet m a0.image_id with
    | error e => rw [hg] at h; cases h
    | ok v =>
      rw [hg] at h
      cases hr : mapAnnots m rest with
      | error e => rw [hr] at h; cases h
      | ok others =>
        rw [hr] at h
        cases h
        rcases List.mem_cons.mp ha with heq | hmem
        · rw [heq]
          exact dictGet_ok_mem m a0.image_id v hg
        · exact ih others hr a hmem

theorem mapAnnots_error_keyError (m : List (Nat × Nat)) :
    ∀ anns e, mapAnnots m anns = .error e → e = .keyError := by
  intro anns
  induction anns with
  | nil =>
    intro e h
    cases h
  | cons a rest ih =>
    intro e h
    unfold mapAnnots at h
    cases hg : dictGet m a.image_id with
    | error e2 =>
      rw [hg] at h
      cases h
      unfold dictGet at hg
      cases hf : m.find? (fun p => p.1 == a.image_id) with
      | none => rw [hf] at hg; cases hg; rfl
      | some p => rw [hf] at hg; cases hg
    | ok v =>
      rw [hg] at h
      cases hr : mapAnnots m rest with
      | error e2 =>
        rw [hr] at h
        cases h
        exact ih _ hr
      | ok others => rw [hr] at h; cases h

theorem nodup_iff_dedup_length {l : List Nat} :
    l.Nodup ↔ l.dedup.length = l.length := by
  constructor
  · intro h
    rw [List.dedup_eq_self.mpr h]
  · intro h
    have heq := (List.dedup_sublist l).eq_of_length h
    rw [← heq]
    exact List.nodup_dedup l

theorem subperm_nodup {l1 l2 : List Nat} (h : List.Subperm l1 l2) (h2 : l2.Nodup) :
    l1.Nodup := by
  obtain ⟨l, hp, hs⟩ := h
  exact hp.nodup_iff.mp (List.Nodup.sublist hs h2)

/-- C5 (amended): for a document whose image ids are unique, the
id-remapping step raises the duplicate-id `ValueError` (with the fixed
message "Extracted image IDs are not unique...") exactly when two or
more images' filenames yield the same extracted frame number; and for
any document, when all extracted frame numbers are distinct this error
is not raised.  (Without the unique-old-ids restriction the first
direction fails, and the message is a constant that does not name the
conflicting filenames or numbers.) -/
theorem update_image_ids_duplicate_check (d : CocoDoc) (ns : List Nat)
    (hex : mapExtract d.images = .ok ns) :
    ((d.images.map (fun i => i.id)).Nodup → ¬ ns.Nodup →
      update_image_ids d = .error (.valueError dupMsg)) ∧
    (ns.Nodup → update_image_ids d ≠ .error (.valueError dupMsg)) := by
  constructor
  · intro hu hd
    have hlen : ns.length = d.images.length := mapExtract_length d.images ns hex
    have hb := buildIdMap_nodup_eq d.images [] ns hex (by simpa using hu)
    have hb2 : buildIdMap d.images [] =
        .ok ((d.images.map (fun i => i.id)).zip ns,
             List.zipWith (fun i n => { i with id := n }) d.images ns) := by
      simpa using hb
    have hvals : (((d.images.map (fun i => i.id)).zip ns).map Prod.snd) = ns :=
      map_snd_zip_eq _ ns (by simp [hlen])
    have hmlen : ((d.images.map (fun i => i.id)).zip ns).length = ns.length := by
      simp [hlen]
    have hcond : ((d.images.map (fun i => i.id)).zip ns).length ≠
        ((((d.images.map (fun i => i.id)).zip ns).map Prod.snd)).dedup.length := by
      rw [hvals, hmlen]
      intro heq
      exact hd (nodup_iff_dedup_length.mpr heq.symm)
    simp only [update_image_ids, hb2]
    rw [if_pos hcond]
  · intro hnd hupd
    obtain ⟨m, imgs2, hb⟩ := buildIdMap_total d.images [] ns hex
    obtain ⟨ns2, hns2, hndm, hsp⟩ :=
      buildIdMap_chars d.images [] m imgs2 hb (by simp)
    rw [hex] at hns2
    cases hns2
    have hvnd : (m.map Prod.snd).Nodup := subperm_nodup (by simpa using hsp) hnd
    have hcond : ¬ (m.length ≠ (m.map Prod.snd).dedup.length) := by
      have h1 : (m.map Prod.snd).dedup.length = (m.map Prod.snd).length :=
        nodup_iff_dedup_length.mp hvnd
      simp [h1]
    simp only [update_image_ids, hb] at hupd
    rw [if_neg hcond] at hupd
    cases hma : mapAnnots m d.annotations with
    | error e =>
      rw [hma] at hupd
      have he2 := mapAnnots_error_keyError m d.annotations e hma
      cases hupd
      cases he2
    | ok anns2 =>
      rw [hma] at hupd
      cases hupd

/-- Counterexample for C5 as stated: in a document whose two images
share the same (already duplicated) id 1 and whose filenames both yield
frame number 5, the duplicate check — which only compares the size of
the old-to-new dict with the number of distinct new ids — sees a
one-entry dict and raises no error, returning a document with two
images of id 5.  Moreover the error message is a fixed constant, so it
cannot name the conflicting filenames or numbers. -/
theorem update_image_ids_duplicate_counterexample :
    extract_frame_number "frame-0005.png" POSEINTERFACE_FRAME_REGEXP = .ok 5 ∧
    dupOldIdDoc.images.map (fun i => i.file_name) =
      ["frame-0005.png", "frame-0005.png"] ∧
    update_image_ids dupOldIdDoc =
      .ok { images := [{ id := 5, file_name := "frame-0005.png" },
                       { id := 5, file_name := "frame-0005.png" }],
            annotations := [] } ∧
    dupMsg = "Extracted image IDs are not unique. Please check that the " ++
      "frame numbers as specified in the filename are unique." :=
  ⟨by decide, by decide, by decide, by decide⟩

/-- Witness for C5 (amended): two distinct-id images both named
`frame-0005` raise the duplicate error; the two-image document with
distinct frame numbers 11 and 12 does not. -/
theorem update_image_ids_duplicate_check_witness :
    update_image_ids dupFrameDoc = .error (.valueError dupMsg) ∧
    update_image_ids twoFrameDoc ≠ .error (.valueError dupMsg) :=
  ⟨(update_image_ids_duplicate_check dupFrameDoc [5, 5] (by decide)).1
      (by decide) (by decide),
   (update_image_ids_duplicate_check twoFrameDoc [11, 12] (by decide)).2
      (by decide)⟩

/-- C2: a successful conversion writes a document with referential
integrity and unique image ids whenever the library-converted document
has them (the conversion writes that document unchanged); and the
id-remapping step preserves the property: for every input document with
referential integrity and unique image ids, a successful
`_update_image_ids` run returns a document in which every annotation's
`image_id` is some image's id and image ids are unique. -/
theorem convert_referential_integrity :
    (∀ (env : ConvertEnv) (ip op : String),
      (env.load_file ip).labeled_frames ≠ [] →
      (env.load_file ip).videos.length = 1 →
      refIntegrity (env.convert_labels (env.load_file ip)) →
      uniqueImageIds (env.convert_labels (env.load_file ip)) →
      ∃ doc, (annotations_to_coco env ip op).writes = [(op, doc)] ∧
        refIntegrity doc ∧ uniqueImageIds doc) ∧
    (∀ (d d2 : CocoDoc), refIntegrity d → uniqueImageIds d →
      update_image_ids d = .ok d2 → refIntegrity d2 ∧ uniqueImageIds d2) := by
  constructor
  · intro env ip op hne hv1 hri hui
    refine ⟨env.convert_labels (env.load_file ip), ?_, hri, hui⟩
    simp only [annotations_to_coco]
    rw [if_neg (by simp [hne]), if_neg (by omega)]
  · intro d d2 hri hui hok
    rcases hb : buildIdMap d.images [] with e | ⟨m, imgs2⟩
    · simp [update_image_ids, hb] at hok
    · by_cases hc : m.length ≠ (m.map Prod.snd).dedup.length
      · simp [update_image_ids, hb, hc] at hok
      · rcases hma : mapAnnots m d.annotations with e | anns2
        · simp [update_image_ids, hb, hc, hma] at hok
        · simp only [update_image_ids, hb] at hok
          rw [if_neg hc] at hok
          rw [hma] at hok
          cases hok
          obtain ⟨ns, hns, hndm, hsp⟩ :=
            buildIdMap_chars d.images [] m imgs2 hb (by simp)
          have hlen : ns.length = d.images.length :=
            mapExtract_length d.images ns hns
          have hbeq := buildIdMap_nodup_eq d.images [] ns hns
            (by simpa [uniqueImageIds] using hui)
          rw [hb] at hbeq
          rw [List.nil_append] at hbeq
          have hpair : (m, imgs2) =
              ((d.images.map (fun i => i.id)).zip ns,
               List.zipWith (fun i n => { i with id := n }) d.images ns) := by
            injection hbeq
          have hm : m = (d.images.map (fun i => i.id)).zip ns :=
            congrArg Prod.fst hpair
          have himgs : imgs2 =
              List.zipWith (fun i n => { i with id := n }) d.images ns :=
            congrArg Prod.snd hpair
          have hvals : m.map Prod.snd = ns := by
            rw [hm]
            exact map_snd_zip_eq _ ns (by simp [hlen])
          have hmlen : m.length = ns.length := by
            rw [hm]
            simp [hlen]
          have heq : m.length = (m.map Prod.snd).dedup.length := not_ne_iff.mp hc
          have hnodup_ns : ns.Nodup := by
            refine nodup_iff_dedup_length.mpr ?_
            rw [← hvals, List.length_map]
            exact heq.symm
          have hids : imgs2.map (fun i => i.id) = ns := by
            rw [himgs]
            exact zipWith_setId_ids d.images ns hlen.symm
          constructor
          · unfold refIntegrity
            intro a ha
            have hmem := mapAnnots_ok_mem m d.annotations anns2 hma a ha
            rw [hvals] at hmem
            simpa [hids] using hmem
          · unfold uniqueImageIds
            simpa [hids] using hnodup_ns

/-- Witness for C2: a concrete single-video conversion whose written
document has referential integrity and unique ids, and a concrete
successful remapping preserving both. -/
theorem convert_referential_integrity_witness :
    (∃ doc, (annotations_to_coco envOneVideo "in.slp" "out.json").writes =
        [("out.json", doc)] ∧ refIntegrity doc ∧ uniqueImageIds doc) ∧
    (refIntegrity
        { images := [{ id := 11, file_name := "frame-00011.png" },
                     { id := 12, file_name := "frame-00012.png" }],
          annotations := [{ id := 1, image_id := 12 },
                          { id := 2, image_id := 11 }] } ∧
      uniqueImageIds
        { images := [{ id := 11, file_name := "frame-00011.png" },
                     { id := 12, file_name := "frame-00012.png" }],
          annotations := [{ id := 1, image_id := 12 },
                          { id := 2, image_id := 11 }] }) :=
  ⟨convert_referential_integrity.1 envOneVideo "in.slp" "out.json"
      (by decide) (by decide)
      (by unfold refIntegrity; decide) (by unfold uniqueImageIds; decide),
   convert_referential_integrity.2 twoFrameDoc
      { images := [{ id := 11, file_name := "frame-00011.png" },
                   { id := 12, file_name := "frame-00012.png" }],
        annotations := [{ id := 1, image_id := 12 },
                        { id := 2, image_id := 11 }] }
      (by unfold refIntegrity; decide) (by unfold uniqueImageIds; decide)
      (by decide)⟩
